import Mathlib

/-!
Shallow embedding of `src/tasnif/calculations.py` (repository `tasnif`).

The file models the three pipeline functions `get_embeddings`,
`calculate_pca` and `calculate_kmeans` over explicit oracle parameters
standing for the third-party routines they delegate to
(`Img2Vec.get_vec`, `sklearn.decomposition.PCA.fit_transform`,
`scipy.cluster.vq.kmeans2`).  Those libraries are not part of the
repository; their behaviour enters the theorems only through contract
hypotheses taken from the specification, or through concrete stub
instances used to witness the theorems.

Values are modelled exactly: numpy arrays as 0-, 1- or 2-dimensional
rational arrays (`NDArray`), Python exceptions as `PyError`, the
possibly-non-array argument of `calculate_kmeans` as `PyObject`, and
each function returns the list of log lines it emitted together with
its `Except` result.
-/

namespace Tasnif

/-- Number of columns of a 2-D array, read off its first row (numpy rows
are uniform; `MatWF` below records that). -/
def ncols (m : List (List Rat)) : Nat := (m.headD []).length

/-- A 2-D array is well formed when every row has the common length. -/
def MatWF (m : List (List Rat)) : Prop := ∀ row ∈ m, row.length = ncols m

instance (m : List (List Rat)) : Decidable (MatWF m) := by
  unfold MatWF; infer_instance

/-- A numpy `ndarray` of dimension 0, 1 or 2, the only shapes this
pipeline produces or consumes. -/
inductive NDArray where
  | scalar (x : Rat)
  | oneD (v : List Rat)
  | twoD (m : List (List Rat))
deriving Repr, DecidableEq

/-- `numpy.ndarray.squeeze`: drop every axis of length 1. -/
def NDArray.squeeze : NDArray → NDArray
  | .scalar x => .scalar x
  | .oneD v => if v.length = 1 then .scalar (v.headD 0) else .oneD v
  | .twoD m =>
      if m.length = 1 then
        (if (m.headD []).length = 1 then .scalar ((m.headD []).headD 0)
         else .oneD (m.headD []))
      else if ncols m = 1 then .oneD (m.map (fun r => r.headD 0))
      else .twoD m

/-- The two-place unpacking `n_samples, _ = embeddings.shape`: succeeds
exactly on 2-D arrays (on other ranks Python raises a ValueError). -/
def NDArray.shape2 : NDArray → Option (Nat × Nat)
  | .twoD m => some (m.length, ncols m)
  | _ => none

/-- Python `len` on an ndarray: the extent of the first axis.  A 0-D
array has no first axis (numpy raises TypeError there); the pipeline
never takes `len` of a 0-D array, so 0 stands in for that case. -/
def pyLen : NDArray → Nat
  | .scalar _ => 0
  | .oneD v => v.length
  | .twoD m => m.length

/-- Python exception values, tagged by type and carrying `str(e)`. -/
inductive PyError where
  | valueError (s : String)
  | runtimeError (s : String)
  | typeError (s : String)
  | linAlgError (s : String)
deriving Repr, DecidableEq

/-- `str(e)`: the message text of an exception. -/
def PyError.msg : PyError → String
  | .valueError s => s
  | .runtimeError s => s
  | .typeError s => s
  | .linAlgError s => s

/-- A Python value that may be passed to `calculate_kmeans`: either a
numpy array or something else, e.g. a plain list of lists. -/
inductive PyObject where
  | ndarray (a : NDArray)
  | pyList (l : List (List Rat))
deriving Repr, DecidableEq

/-- An input image; opaque to this code, identified by a tag. -/
structure Image where
  tag : Nat
deriving Repr, DecidableEq

/-- `get_embeddings(use_gpu=False, images=None)`: logs the device line,
builds `Img2Vec(cuda=use_gpu)` and returns `img2vec.get_vec(images,
tensor=False)` unchanged.  `get_vec` is the external extractor, a
parameter here; the `cuda` flag is bound at construction, so the oracle
takes it as its first argument. -/
def get_embeddings (get_vec : Bool → Option (List Image) → Except PyError NDArray)
    (use_gpu : Bool) (images : Option (List Image)) :
    List String × Except PyError NDArray :=
  (["Img2Vec is running on " ++ (if use_gpu then "GPU" else "CPU") ++ "..."],
   get_vec use_gpu images)

/-- `calculate_pca(embeddings, pca_dim)`: unpack the shape, clamp
`n_components` to `min(n_samples, pca_dim)` when `n_samples < pca_dim`
(logging the adjustment), then return
`PCA(n_components).fit_transform(embeddings.squeeze())`.
`fit_transform` is the external sklearn routine, a parameter here. -/
def calculate_pca (fit_transform : Int → NDArray → Except PyError NDArray)
    (embeddings : NDArray) (pca_dim : Int) :
    List String × Except PyError NDArray :=
  match embeddings.shape2 with
  | none => ([], .error (.valueError "not enough values to unpack (expected 2)"))
  | some (n_samples, _) =>
      let n_components : Int :=
        if (n_samples : Int) < pca_dim then min (n_samples : Int) pca_dim
        else pca_dim
      let logs : List String :=
        if (n_samples : Int) < pca_dim then
          ["Number of samples is less than the desired dimension. Setting n_components to "
            ++ toString n_components]
        else []
      match fit_transform n_components embeddings.squeeze with
      | .ok r => (logs ++ ["PCA calculated."], .ok r)
      | .error e => (logs, .error e)

/-- `numpy.bincount` on a list of non-negative labels: entry `i` counts
the occurrences of `i`; the length is `max(labels) + 1` (0 when the
input is empty). -/
def bincount (l : List Nat) : List Nat :=
  match l with
  | [] => []
  | _ :: _ => (List.range (l.foldr max 0 + 1)).map (fun i => l.count i)

/-- `calculate_kmeans(pca_embeddings, num_classes)`: reject a non-array
input, reject `num_classes > len(pca_embeddings)`, then run
`kmeans2(data=pca_embeddings, k=num_classes, minit="points")`,
`np.bincount(labels)` and return `(centroid, labels, counts)`; any
exception inside that block is re-raised as
`RuntimeError(f"An error occurred during KMeans processing: ...")`.
`kmeans2` is the external scipy routine, a parameter here. -/
def calculate_kmeans (kmeans2 : NDArray → Int → Except PyError (NDArray × List Nat))
    (pca_embeddings : PyObject) (num_classes : Int) :
    List String × Except PyError (NDArray × List Nat × List Nat) :=
  match pca_embeddings with
  | .ndarray a =>
      if num_classes > (pyLen a : Int) then
        ([], .error (.valueError
          "num_classes must be less than or equal to the number of samples in pca_embeddings"))
      else
        match kmeans2 a num_classes with
        | .ok (centroid, labels) =>
            (["KMeans calculated."], .ok (centroid, labels, bincount labels))
        | .error e =>
            ([], .error (.runtimeError
              ("An error occurred during KMeans processing: " ++ e.msg)))
  | .pyList _ => ([], .error (.valueError "pca_embeddings must be a numpy array"))

/-! ### Helper lemmas -/

theorem squeeze_twoD_of_two_le (m : List (List Rat)) (hr : 2 ≤ m.length)
    (hc : 2 ≤ ncols m) : NDArray.squeeze (.twoD m) = .twoD m := by
  simp only [NDArray.squeeze]
  rw [if_neg (by omega), if_neg (by omega)]

theorem le_foldr_max (l : List Nat) : ∀ x ∈ l, x ≤ l.foldr max 0 := by
  induction l with
  | nil => intro x hx; cases hx
  | cons a t ih =>
      intro x hx
      rcases List.mem_cons.mp hx with h | h
      · subst h; exact le_max_left _ _
      · exact le_trans (ih x h) (le_max_right _ _)

theorem sum_map_indicator (N a : Nat) :
    ((List.range N).map (fun i => if a = i then 1 else 0)).sum =
      if a < N then 1 else 0 := by
  induction N with
  | zero => simp
  | succ n ih =>
      rw [List.range_succ, List.map_append, List.sum_append, ih]
      simp only [List.map_cons, List.map_nil, List.sum_cons, List.sum_nil]
      split_ifs <;> omega

theorem sum_range_count (N : Nat) (l : List Nat) (hb : ∀ x ∈ l, x < N) :
    ((List.range N).map (fun i => l.count i)).sum = l.length := by
  induction l with
  | nil => simp
  | cons a t ih =>
      have ha : a < N := hb a (List.mem_cons_self a t)
      have hbt : ∀ x ∈ t, x < N := fun x hx => hb x (List.mem_cons_of_mem a hx)
      calc ((List.range N).map (fun i => (a :: t).count i)).sum
          = ((List.range N).map
              (fun i => t.count i + if a = i then 1 else 0)).sum := by
            simp [List.count_cons]
        _ = ((List.range N).map (fun i => t.count i)).sum +
              ((List.range N).map (fun i => if a = i then 1 else 0)).sum := by
            rw [← List.sum_map_add]
        _ = t.length + 1 := by rw [ih hbt, sum_map_indicator, if_pos ha]
        _ = (a :: t).length := by simp

theorem bincount_sum (l : List Nat) : (bincount l).sum = l.length := by
  cases l with
  | nil => rfl
  | cons a t =>
      unfold bincount
      exact sum_range_count _ _ (fun x hx =>
        Nat.lt_succ_of_le (le_foldr_max _ x hx))

theorem bincount_length (l : List Nat) (h : l ≠ []) :
    (bincount l).length = l.foldr max 0 + 1 := by
  cases l with
  | nil => exact absurd rfl h
  | cons a t => simp [bincount]

/-! ### Claims -/

/-- Claim C3: for every numeric matrix input, calling `calculate_kmeans`
with `num_classes` greater than the number of samples fails with a
ValueError and performs no clustering computation: the result is the
same for every clustering routine, so the routine is never consulted and
no partial result or state change occurs. -/
theorem C3_kmeans_rejects_excess_classes (a : NDArray) (num_classes : Int)
    (hgt : num_classes > (pyLen a : Int)) :
    ∀ kmeans2, calculate_kmeans kmeans2 (.ndarray a) num_classes =
      ([], .error (.valueError
        "num_classes must be less than or equal to the number of samples in pca_embeddings")) := by
  intro km
  simp only [calculate_kmeans]
  rw [if_pos hgt]

/-- Witness for C3 at the concrete 1-row matrix `[[1, 2]]` and
`num_classes = 2`. -/
theorem C3_kmeans_rejects_excess_classes_witness :
    calculate_kmeans (fun _ _ => .error (.valueError "unused"))
        (.ndarray (.twoD [[1, 2]])) 2 =
      ([], .error (.valueError
        "num_classes must be less than or equal to the number of samples in pca_embeddings")) :=
  C3_kmeans_rejects_excess_classes (.twoD [[1, 2]]) 2 (by decide) _

/-- Claim C5: for every input that is not a numpy array (e.g. a plain
list of lists), `calculate_kmeans` fails with a ValueError before
invoking the underlying clustering routine: the result is the same for
every clustering routine. -/
theorem C5_kmeans_rejects_non_array (p : PyObject)
    (hna : ∀ a, p ≠ .ndarray a) (num_classes : Int) :
    ∀ kmeans2, calculate_kmeans kmeans2 p num_classes =
      ([], .error (.valueError "pca_embeddings must be a numpy array")) := by
  intro km
  cases p with
  | ndarray a => exact absurd rfl (hna a)
  | pyList l => rfl

/-- Witness for C5 at the concrete plain list of lists `[[1, 2], [3, 4]]`. -/
theorem C5_kmeans_rejects_non_array_witness :
    calculate_kmeans (fun _ _ => .error (.valueError "unused"))
        (.pyList [[1, 2], [3, 4]]) 2 =
      ([], .error (.valueError "pca_embeddings must be a numpy array")) :=
  C5_kmeans_rejects_non_array (.pyList [[1, 2], [3, 4]])
    (fun _ h => PyObject.noConfusion h) 2 _

/-- Shared evaluation lemma: when validation passes and the clustering
routine succeeds, `calculate_kmeans` logs and returns the triple with
bincounted labels. -/
theorem kmeans_ok_case (kmeans2 : NDArray → Int → Except PyError (NDArray × List Nat))
    (a : NDArray) (num_classes : Int) (cent : NDArray) (labels : List Nat)
    (hle : ¬ num_classes > (pyLen a : Int))
    (hok : kmeans2 a num_classes = .ok (cent, labels)) :
    calculate_kmeans kmeans2 (.ndarray a) num_classes =
      (["KMeans calculated."], .ok (cent, labels, bincount labels)) := by
  simp only [calculate_kmeans]
  rw [if_neg hle, hok]

/-- Shared evaluation lemma: when validation passes and the clustering
routine raises, `calculate_kmeans` re-raises a RuntimeError wrapping the
original message. -/
theorem kmeans_error_case (kmeans2 : NDArray → Int → Except PyError (NDArray × List Nat))
    (a : NDArray) (num_classes : Int) (e : PyError)
    (hle : ¬ num_classes > (pyLen a : Int))
    (herr : kmeans2 a num_classes = .error e) :
    calculate_kmeans kmeans2 (.ndarray a) num_classes =
      ([], .error (.runtimeError
        ("An error occurred during KMeans processing: " ++ e.msg))) := by
  simp only [calculate_kmeans]
  rw [if_neg hle, herr]

/-- Claim C4: after argument validation passes, every error raised by
the clustering routine is caught and re-raised as a RuntimeError whose
message extends the original error's message text; two underlying errors
of different types but equal message yield identical results, so callers
cannot distinguish the original cause by type. -/
theorem C4_kmeans_wraps_errors
    (kmeans2 : NDArray → Int → Except PyError (NDArray × List Nat))
    (a : NDArray) (num_classes : Int) (e : PyError)
    (hle : ¬ num_classes > (pyLen a : Int))
    (herr : kmeans2 a num_classes = .error e) :
    calculate_kmeans kmeans2 (.ndarray a) num_classes =
      ([], .error (.runtimeError
        ("An error occurred during KMeans processing: " ++ e.msg))) ∧
    (∃ pre, "An error occurred during KMeans processing: " ++ e.msg =
      pre ++ e.msg) ∧
    (∀ km' (e' : PyError), km' a num_classes = .error e' → e'.msg = e.msg →
      calculate_kmeans km' (.ndarray a) num_classes =
        calculate_kmeans kmeans2 (.ndarray a) num_classes) := by
  refine ⟨kmeans_error_case _ _ _ _ hle herr, ⟨_, rfl⟩, ?_⟩
  intro km' e' herr' hmsg
  rw [kmeans_error_case km' a num_classes e' hle herr',
    kmeans_error_case kmeans2 a num_classes e hle herr, hmsg]

/-- Witness for C4: a clustering routine failing with a
`LinAlgError("singular matrix")` is re-surfaced as a RuntimeError
carrying that message. -/
theorem C4_kmeans_wraps_errors_witness :
    calculate_kmeans (fun _ _ => .error (.linAlgError "singular matrix"))
        (.ndarray (.twoD [[1], [2]])) 2 =
      ([], .error (.runtimeError
        ("An error occurred during KMeans processing: " ++
          PyError.msg (.linAlgError "singular matrix")))) ∧
    (∃ pre, "An error occurred during KMeans processing: " ++
        PyError.msg (.linAlgError "singular matrix") =
      pre ++ PyError.msg (.linAlgError "singular matrix")) ∧
    (∀ km' (e' : PyError),
        km' (.twoD [[1], [2]]) 2 = .error e' →
        e'.msg = PyError.msg (.linAlgError "singular matrix") →
      calculate_kmeans km' (.ndarray (.twoD [[1], [2]])) 2 =
        calculate_kmeans (fun _ _ => .error (.linAlgError "singular matrix"))
          (.ndarray (.twoD [[1], [2]])) 2) :=
  C4_kmeans_wraps_errors (fun _ _ => .error (.linAlgError "singular matrix"))
    (.twoD [[1], [2]]) 2 (.linAlgError "singular matrix") (by decide) rfl

/-- Claim C6: for every reduced matrix and `num_classes ≤ n_samples`,
a successful `calculate_kmeans` call (with the clustering routine
meeting the spec's contract: one label per row, each in
`[0, num_classes)`) returns the per-row labels all in
`[0, num_classes)` together with the centroids and per-cluster counts
summing to `n_samples`. -/
theorem C6_kmeans_success_shape
    (kmeans2 : NDArray → Int → Except PyError (NDArray × List Nat))
    (a : NDArray) (num_classes : Int) (cent : NDArray) (labels : List Nat)
    (hle : num_classes ≤ (pyLen a : Int))
    (hok : kmeans2 a num_classes = .ok (cent, labels))
    (hlen : labels.length = pyLen a)
    (hrange : ∀ x ∈ labels, (x : Int) < num_classes) :
    calculate_kmeans kmeans2 (.ndarray a) num_classes =
      (["KMeans calculated."], .ok (cent, labels, bincount labels)) ∧
    labels.length = pyLen a ∧
    (∀ x ∈ labels, 0 ≤ (x : Int) ∧ (x : Int) < num_classes) ∧
    (bincount labels).sum = pyLen a :=
  ⟨kmeans_ok_case _ _ _ _ _ (not_lt.mpr hle) hok, hlen,
   fun x hx => ⟨Int.natCast_nonneg x, hrange x hx⟩,
   (bincount_sum labels).trans hlen⟩

/-- Witness for C6 at a concrete 2-row matrix, two clusters and a
contract-satisfying clustering routine assigning labels `[0, 1]`. -/
theorem C6_kmeans_success_shape_witness :
    calculate_kmeans (fun arr _ => .ok (arr, [0, 1]))
        (.ndarray (.twoD [[1], [2]])) 2 =
      (["KMeans calculated."],
        .ok (.twoD [[1], [2]], [0, 1], bincount [0, 1])) ∧
    List.length ([0, 1] : List Nat) = pyLen (.twoD [[1], [2]]) ∧
    (∀ x ∈ ([0, 1] : List Nat), 0 ≤ (x : Int) ∧ (x : Int) < 2) ∧
    (bincount [0, 1]).sum = pyLen (.twoD [[1], [2]]) :=
  C6_kmeans_success_shape (fun arr _ => .ok (arr, [0, 1]))
    (.twoD [[1], [2]]) 2 (.twoD [[1], [2]]) [0, 1]
    (by decide) rfl (by decide) (by decide)

/-- Claim C10: the counts returned by a successful `calculate_kmeans`
call are exactly `bincount labels`, whose length is `max(labels) + 1`;
so when the highest-numbered clusters receive no members the counts
sequence is shorter than `num_classes` — witnessed by a run (with a
contract-respecting label assignment) whose counts have fewer entries
than the requested number of clusters. -/
theorem C10_counts_are_bincount
    (kmeans2 : NDArray → Int → Except PyError (NDArray × List Nat))
    (a : NDArray) (num_classes : Int) (cent : NDArray) (labels : List Nat)
    (hle : ¬ num_classes > (pyLen a : Int))
    (hok : kmeans2 a num_classes = .ok (cent, labels))
    (hne : labels ≠ []) :
    calculate_kmeans kmeans2 (.ndarray a) num_classes =
      (["KMeans calculated."], .ok (cent, labels, bincount labels)) ∧
    (bincount labels).length = labels.foldr max 0 + 1 ∧
    ∃ (km2 : NDArray → Int → Except PyError (NDArray × List Nat))
      (a2 : NDArray) (nc2 : Int) (c2 : NDArray) (l2 : List Nat),
        calculate_kmeans km2 (.ndarray a2) nc2 =
          (["KMeans calculated."], .ok (c2, l2, bincount l2)) ∧
        (∀ x ∈ l2, (x : Int) < nc2) ∧
        ((bincount l2).length : Int) < nc2 := by
  refine ⟨kmeans_ok_case _ _ _ _ _ hle hok, bincount_length labels hne, ?_⟩
  exact ⟨fun arr _ => .ok (arr, [0, 0]), .twoD [[1], [2]], 2,
    .twoD [[1], [2]], [0, 0],
    kmeans_ok_case _ _ _ _ _ (by decide) rfl, by decide, by decide⟩

/-- Witness for C10 at a concrete single-row matrix with one cluster. -/
theorem C10_counts_are_bincount_witness :
    calculate_kmeans (fun arr _ => .ok (arr, [0]))
        (.ndarray (.twoD [[1]])) 1 =
      (["KMeans calculated."], .ok (.twoD [[1]], [0], bincount [0])) ∧
    (bincount [0]).length = List.foldr max 0 [0] + 1 ∧
    ∃ (km2 : NDArray → Int → Except PyError (NDArray × List Nat))
      (a2 : NDArray) (nc2 : Int) (c2 : NDArray) (l2 : List Nat),
        calculate_kmeans km2 (.ndarray a2) nc2 =
          (["KMeans calculated."], .ok (c2, l2, bincount l2)) ∧
        (∀ x ∈ l2, (x : Int) < nc2) ∧
        ((bincount l2).length : Int) < nc2 :=
  C10_counts_are_bincount (fun arr _ => .ok (arr, [0]))
    (.twoD [[1]]) 1 (.twoD [[1]]) [0] (by decide) rfl (by decide)

/-- Claim C8: each of the three pipeline functions is independent of
prior invocations and idempotent: with the external routines fixed, each
is a pure function of its arguments, so two calls on identical inputs
produce identical outputs. -/
theorem C8_stateless_idempotent :
    (∀ gv (g : Bool) (i : Option (List Image)) g' i', g = g' → i = i' →
        get_embeddings gv g i = get_embeddings gv g' i') ∧
    (∀ ft (e : NDArray) (d : Int) e' d', e = e' → d = d' →
        calculate_pca ft e d = calculate_pca ft e' d') ∧
    (∀ km (p : PyObject) (n : Int) p' n', p = p' → n = n' →
        calculate_kmeans km p n = calculate_kmeans km p' n') := by
  refine ⟨?_, ?_, ?_⟩ <;> (intros; subst_vars; rfl)

/-- Witness for C8: a repeated concrete call of each pipeline function
yields the same output. -/
theorem C8_stateless_idempotent_witness :
    get_embeddings (fun _ _ => .ok (.twoD [[1]])) false none =
      get_embeddings (fun _ _ => .ok (.twoD [[1]])) false none ∧
    calculate_pca (fun _ _ => .ok (.twoD [[1]])) (.twoD [[1, 2], [3, 4]]) 1 =
      calculate_pca (fun _ _ => .ok (.twoD [[1]])) (.twoD [[1, 2], [3, 4]]) 1 ∧
    calculate_kmeans (fun a _ => .ok (a, [0])) (.ndarray (.twoD [[1, 2]])) 1 =
      calculate_kmeans (fun a _ => .ok (a, [0])) (.ndarray (.twoD [[1, 2]])) 1 :=
  ⟨C8_stateless_idempotent.1 _ false none false none rfl rfl,
   C8_stateless_idempotent.2.1 _ _ 1 _ 1 rfl rfl,
   C8_stateless_idempotent.2.2 _ _ 1 _ 1 rfl rfl⟩

/-- Modelled from the spec: `sklearn.decomposition.PCA.fit_transform`
is third-party code, absent from the repository.  Per the spec's
projector capability it returns, for a 2-D matrix and a target dimension
`k` with `1 ≤ k ≤ min(n_samples, n_features)`, a matrix with the same
row count and `k` columns.  This stub realises that contract (keeping
the first `k` coordinates of each row) and is used only to witness the
contract hypotheses of the shape theorems. -/
def pcaStub (k : Int) (a : NDArray) : Except PyError NDArray :=
  match a with
  | .twoD m =>
      if 1 ≤ k ∧ k ≤ (m.length : Int) ∧ k ≤ (ncols m : Int) then
        .ok (.twoD (m.map (fun row => row.take k.toNat)))
      else .error (.valueError "n_components is out of range")
  | _ => .error (.valueError "Expected 2D array")

theorem pcaStub_contract (m : List (List Rat)) (k : Int)
    (h1 : 1 ≤ k) (h2 : k ≤ (m.length : Int)) (h3 : k ≤ (ncols m : Int)) :
    ∃ r, pcaStub k (.twoD m) = .ok (.twoD r) ∧ r.length = m.length ∧
      (ncols r : Int) = k := by
  refine ⟨m.map (fun row => row.take k.toNat), ?_, by simp, ?_⟩
  · simp only [pcaStub]
    rw [if_pos ⟨h1, h2, h3⟩]
  · cases m with
    | nil => exfalso; simp at h2; omega
    | cons r0 t =>
        have hcol : ncols (r0 :: t) = r0.length := rfl
        have hcol2 :
            ncols ((r0 :: t).map (fun row => row.take k.toNat)) =
              (r0.take k.toNat).length := rfl
        rw [hcol2, List.length_take]
        rw [hcol] at h3
        omega

/-- Claim C1: for every well-formed embedding matrix with
`n_samples ≥ pca_dim` (the projector meeting the spec's contract on it,
and both array axes of length at least 2 so that numpy `squeeze` leaves
the matrix 2-D), `calculate_pca` returns a matrix with the same number
of rows as the input and exactly `pca_dim` columns. -/
theorem C1_pca_gives_pca_dim_columns
    (ft : Int → NDArray → Except PyError NDArray)
    (m : List (List Rat)) (pca_dim : Int) (_hwf : MatWF m)
    (hProj : ∀ k : Int, 1 ≤ k → k ≤ (m.length : Int) →
      k ≤ (ncols m : Int) →
      ∃ r, ft k (NDArray.twoD m) = .ok (.twoD r) ∧ r.length = m.length ∧
        (ncols r : Int) = k)
    (h1 : 1 ≤ pca_dim) (h2 : pca_dim ≤ (m.length : Int))
    (h3 : pca_dim ≤ (ncols m : Int))
    (hr : 2 ≤ m.length) (hc : 2 ≤ ncols m) :
    ∃ r, calculate_pca ft (.twoD m) pca_dim =
        (["PCA calculated."], .ok (.twoD r)) ∧
      r.length = m.length ∧ (ncols r : Int) = pca_dim := by
  obtain ⟨r, hft, hlen, hcols⟩ := hProj pca_dim h1 h2 h3
  refine ⟨r, ?_, hlen, hcols⟩
  have hnlt : ¬ ((m.length : Int) < pca_dim) := not_lt.mpr h2
  simp only [calculate_pca, NDArray.shape2, if_neg hnlt]
  rw [squeeze_twoD_of_two_le m hr hc, hft]
  simp

/-- Witness for C1: a 2x2 matrix reduced to 1 column via the stub
projector. -/
theorem C1_pca_gives_pca_dim_columns_witness :
    ∃ r, calculate_pca pcaStub (.twoD [[1, 2], [3, 4]]) 1 =
        (["PCA calculated."], .ok (.twoD r)) ∧
      r.length = List.length [[(1 : Rat), 2], [3, 4]] ∧
      (ncols r : Int) = 1 :=
  C1_pca_gives_pca_dim_columns pcaStub [[1, 2], [3, 4]] 1 (by decide)
    (fun k hk1 hk2 hk3 => pcaStub_contract [[1, 2], [3, 4]] k hk1 hk2 hk3)
    (by decide) (by decide) (by decide) (by decide) (by decide)

/-- Claim C2: for every well-formed embedding matrix with
`n_samples < pca_dim` (the projector meeting the spec's contract,
`n_samples ≤ n_features`, both axes of length at least 2),
`calculate_pca` silently clamps the effective dimension to `n_samples`,
logs the adjustment, and returns a matrix with exactly `n_samples`
columns instead of failing. -/
theorem C2_pca_clamps_and_logs
    (ft : Int → NDArray → Except PyError NDArray)
    (m : List (List Rat)) (pca_dim : Int) (_hwf : MatWF m)
    (hProj : ∀ k : Int, 1 ≤ k → k ≤ (m.length : Int) →
      k ≤ (ncols m : Int) →
      ∃ r, ft k (NDArray.twoD m) = .ok (.twoD r) ∧ r.length = m.length ∧
        (ncols r : Int) = k)
    (hlt : (m.length : Int) < pca_dim)
    (hr : 2 ≤ m.length) (hnc : m.length ≤ ncols m) :
    ∃ r, calculate_pca ft (.twoD m) pca_dim =
        (["Number of samples is less than the desired dimension. Setting n_components to "
            ++ toString ((m.length : Int)), "PCA calculated."],
          .ok (.twoD r)) ∧
      r.length = m.length ∧ ncols r = m.length := by
  have h1 : (1 : Int) ≤ (m.length : Int) := by
    exact_mod_cast Nat.one_le_of_lt hr
  have h3 : (m.length : Int) ≤ (ncols m : Int) := by exact_mod_cast hnc
  obtain ⟨r, hft, hlen, hcols⟩ := hProj (m.length : Int) h1 le_rfl h3
  have hc : 2 ≤ ncols m := le_trans hr hnc
  refine ⟨r, ?_, hlen, by exact_mod_cast hcols⟩
  have hmin : min ((m.length : Int)) pca_dim = (m.length : Int) :=
    min_eq_left hlt.le
  simp only [calculate_pca, NDArray.shape2, if_pos hlt, hmin]
  rw [squeeze_twoD_of_two_le m hr hc, hft]
  simp

/-- Witness for C2: a 2x3 matrix with requested dimension 5 is clamped
to 2 columns, and the adjustment is logged. -/
theorem C2_pca_clamps_and_logs_witness :
    ∃ r, calculate_pca pcaStub (.twoD [[1, 2, 3], [4, 5, 6]]) 5 =
        (["Number of samples is less than the desired dimension. Setting n_components to "
            ++ toString ((List.length [[(1 : Rat), 2, 3], [4, 5, 6]] : Int)),
          "PCA calculated."],
          .ok (.twoD r)) ∧
      r.length = List.length [[(1 : Rat), 2, 3], [4, 5, 6]] ∧
      ncols r = List.length [[(1 : Rat), 2, 3], [4, 5, 6]] :=
  C2_pca_clamps_and_logs pcaStub [[1, 2, 3], [4, 5, 6]] 5 (by decide)
    (fun k hk1 hk2 hk3 => pcaStub_contract [[1, 2, 3], [4, 5, 6]] k hk1 hk2 hk3)
    (by decide) (by decide) (by decide)

/-- Claim C7: no error raised inside the embedder or the reducer is
caught by this code.  `get_embeddings` returns the extractor's outcome
unchanged (so an extractor error propagates with its identity
preserved); `calculate_pca` propagates a projector error unchanged; and
a non-positive `pca_dim` is passed through unvalidated — the call's
outcome is exactly the projector's outcome at
`n_components = pca_dim`. -/
theorem C7_embedder_reducer_errors_uncaught :
    (∀ gv (g : Bool) (i : Option (List Image)) (e : PyError),
      gv g i = .error e → (get_embeddings gv g i).2 = .error e) ∧
    (∀ ft (m : List (List Rat)) (d : Int) (e : PyError),
      ft (if (m.length : Int) < d then min ((m.length : Int)) d else d)
          (NDArray.squeeze (.twoD m)) = .error e →
      (calculate_pca ft (.twoD m) d).2 = .error e) ∧
    (∀ ft (m : List (List Rat)) (d : Int), d ≤ 0 →
      (calculate_pca ft (.twoD m) d).2 =
        ft d (NDArray.squeeze (.twoD m))) := by
  refine ⟨?_, ?_, ?_⟩
  · intro gv g i e he
    simp only [get_embeddings]
    exact he
  · intro ft m d e he
    simp only [calculate_pca, NDArray.shape2]
    rw [he]
  · intro ft m d hd
    have hnlt : ¬ ((m.length : Int) < d) := by
      have : (0 : Int) ≤ (m.length : Int) := Int.natCast_nonneg _
      omega
    simp only [calculate_pca, NDArray.shape2, if_neg hnlt]
    cases hft : ft d (NDArray.squeeze (.twoD m)) with
    | ok r => rfl
    | error e => rfl

/-- Witness for C7: a failing extractor error surfaces unchanged from
`get_embeddings`; a projector error surfaces unchanged from
`calculate_pca`; and with `pca_dim = -1` the projector's outcome is
returned as is. -/
theorem C7_embedder_reducer_errors_uncaught_witness :
    (get_embeddings (fun _ _ => .error (.valueError "boom")) false none).2 =
      .error (.valueError "boom") ∧
    (calculate_pca (fun _ _ => .error (.linAlgError "svd failed"))
        (.twoD [[1, 2], [3, 4]]) 1).2 =
      .error (.linAlgError "svd failed") ∧
    (calculate_pca (fun _ _ => .error (.valueError "bad n_components"))
        (.twoD [[1, 2], [3, 4]]) (-1)).2 =
      (fun (_ : Int) (_ : NDArray) =>
        (Except.error (.valueError "bad n_components") :
          Except PyError NDArray)) (-1)
        (NDArray.squeeze (.twoD [[1, 2], [3, 4]])) :=
  ⟨C7_embedder_reducer_errors_uncaught.1
      (fun _ _ => .error (.valueError "boom")) false none
      (.valueError "boom") rfl,
   C7_embedder_reducer_errors_uncaught.2.1
      (fun _ _ => .error (.linAlgError "svd failed"))
      [[1, 2], [3, 4]] 1 (.linAlgError "svd failed") rfl,
   C7_embedder_reducer_errors_uncaught.2.2
      (fun _ _ => .error (.valueError "bad n_components"))
      [[1, 2], [3, 4]] (-1) (by decide)⟩

/-- Claim C9: for every non-empty image collection, with the extractor
meeting the spec's contract (one fixed-length vector per image, in
input order), `get_embeddings` returns a dense matrix whose row count
equals the input count and whose `i`-th row is the embedding of the
`i`-th input image. -/
theorem C9_one_row_per_image_in_order
    (gv : Bool → Option (List Image) → Except PyError NDArray)
    (use_gpu : Bool) (images : List Image) (embed : Image → List Rat)
    (_hne : images ≠ [])
    (hgv : gv use_gpu (some images) = .ok (.twoD (images.map embed))) :
    ∃ M, (get_embeddings gv use_gpu (some images)).2 = .ok (.twoD M) ∧
      M.length = images.length ∧
      ∀ i, i < images.length →
        M.getD i [] = embed (images.getD i ⟨0⟩) := by
  refine ⟨images.map embed, ?_, by simp, ?_⟩
  · simp only [get_embeddings]
    exact hgv
  · intro i hi
    rw [List.getD_eq_getElem?_getD, List.getD_eq_getElem?_getD,
      List.getElem?_map, List.getElem?_eq_getElem hi]
    rfl

/-- Witness for C9: two tagged images, an extractor returning the tag as
a one-entry vector per image; the output has 2 rows in input order. -/
theorem C9_one_row_per_image_in_order_witness :
    ∃ M, (get_embeddings
        (fun _ o => .ok (.twoD ((o.getD []).map
          (fun im => [(im.tag : Rat)]))))
        false (some [⟨0⟩, ⟨1⟩])).2 = .ok (.twoD M) ∧
      M.length = List.length [(⟨0⟩ : Image), ⟨1⟩] ∧
      ∀ i, i < List.length [(⟨0⟩ : Image), ⟨1⟩] →
        M.getD i [] = [(((([(⟨0⟩ : Image), ⟨1⟩]).getD i ⟨0⟩).tag : Rat))] :=
  C9_one_row_per_image_in_order
    (fun _ o => .ok (.twoD ((o.getD []).map (fun im => [(im.tag : Rat)]))))
    false [⟨0⟩, ⟨1⟩] (fun im => [(im.tag : Rat)]) (by decide) rfl

end Tasnif
